import Mathlib

/-
Verification development for the Fake Welfare Detection System.

The relationship-graph engine (`build_graph` in
`Fraud_Network_Analysis/app.py`, `Fraud_Network_Analysis/build_cache.py`
and `Fraud Network Analysis/backend.py`) and the pipeline orchestrator
(`pipeline_basic` in `main.py`) are embedded shallowly: pandas rows become
`Record`s, a missing/empty CSV cell (pandas `NaN`, dropped by `groupby`)
becomes `Option.none`, the NetworkX graph becomes an executable edge
predicate over the record list, and the ad-hoc Python result dictionaries
become structures with `Option`-valued fields (a key is present iff the
field is `some`).
-/

namespace FakeWelfare

/-- One row of `fraud_network_50000.csv` as used by `build_graph`: a
beneficiary id plus the four linking-attribute columns.  A linking
attribute is `none` when the CSV cell is empty/NaN (pandas `groupby`
drops such rows from every group, so they can never join a group). -/
structure Record where
  beneficiary_id : String
  phone_number : Option String
  bank_account : Option String
  agent_id : Option String
  aadhaar_like_id : Option String
deriving DecidableEq, Repr

/-- The four linking-attribute columns iterated by `build_graph`
(`for column in ["phone_number", "bank_account", "agent_id",
"aadhaar_like_id"]: add_edges(column)`). -/
def linkingColumns : List (Record → Option String) :=
  [Record.phone_number, Record.bank_account, Record.agent_id, Record.aadhaar_like_id]

/-- Two rows fall into a common `groupby(col)` group for some linking
column: both carry the same non-NaN value in that column. -/
def sharesAttr (a b : Record) : Bool :=
  linkingColumns.any fun f =>
    match f a, f b with
    | some v, some w => v == w
    | _, _ => false

/-- All pairs of rows taken at distinct positions i < j of the input,
mirroring the `for i / for j in range(i+1, ...)` double loop that
`add_edges` runs inside each group. -/
def recPairs : List α → List (α × α)
  | [] => []
  | x :: xs => (xs.map fun b => (x, b)) ++ recPairs xs

/-- Edge predicate of the graph `build_graph` returns: `G.add_edge` is
called for a pair of rows iff the two rows share a non-NaN value in some
linking column; the resulting NetworkX edge is undirected. -/
def graphEdge (data : List Record) (x y : String) : Bool :=
  (recPairs data).any fun p =>
    sharesAttr p.1 p.2 &&
      ((p.1.beneficiary_id == x && p.2.beneficiary_id == y) ||
       (p.1.beneficiary_id == y && p.2.beneficiary_id == x))

/-- Node list of the built graph: `G.add_node(row["beneficiary_id"])` for
every row, duplicates collapsing to a single NetworkX node. -/
def graphNodes (data : List Record) : List String :=
  (data.map Record.beneficiary_id).dedup

/-- Spec-side formulation of "a and b share at least one non-empty value
of a linking attribute". -/
def sharesSpec (a b : Record) : Prop :=
  ∃ v : String,
    (a.phone_number = some v ∧ b.phone_number = some v) ∨
    (a.bank_account = some v ∧ b.bank_account = some v) ∨
    (a.agent_id = some v ∧ b.agent_id = some v) ∨
    (a.aadhaar_like_id = some v ∧ b.aadhaar_like_id = some v)

theorem matchCol_iff (u v : Option String) :
    (match u, v with | some x, some y => x == y | _, _ => false) = true
      ↔ ∃ w, u = some w ∧ v = some w := by
  cases u with
  | none => simp
  | some x =>
    cases v with
    | none => simp
    | some y =>
      constructor
      · intro h
        exact ⟨y, by rw [eq_of_beq h], rfl⟩
      · rintro ⟨w, hw1, hw2⟩
        simp only [Option.some.injEq] at hw1 hw2
        subst hw1
        subst hw2
        exact beq_self_eq_true _

theorem sharesAttr_iff (a b : Record) : sharesAttr a b = true ↔ sharesSpec a b := by
  simp only [sharesAttr, linkingColumns, List.any_cons, List.any_nil, Bool.or_false,
    Bool.or_eq_true, sharesSpec]
  constructor
  · intro h
    rcases h with h | h | h | h
    · obtain ⟨w, h1, h2⟩ := (matchCol_iff _ _).mp h
      exact ⟨w, Or.inl ⟨h1, h2⟩⟩
    · obtain ⟨w, h1, h2⟩ := (matchCol_iff _ _).mp h
      exact ⟨w, Or.inr (Or.inl ⟨h1, h2⟩)⟩
    · obtain ⟨w, h1, h2⟩ := (matchCol_iff _ _).mp h
      exact ⟨w, Or.inr (Or.inr (Or.inl ⟨h1, h2⟩))⟩
    · obtain ⟨w, h1, h2⟩ := (matchCol_iff _ _).mp h
      exact ⟨w, Or.inr (Or.inr (Or.inr ⟨h1, h2⟩))⟩
  · rintro ⟨v, ⟨h1, h2⟩ | ⟨h1, h2⟩ | ⟨h1, h2⟩ | ⟨h1, h2⟩⟩
    · exact Or.inl ((matchCol_iff _ _).mpr ⟨v, h1, h2⟩)
    · exact Or.inr (Or.inl ((matchCol_iff _ _).mpr ⟨v, h1, h2⟩))
    · exact Or.inr (Or.inr (Or.inl ((matchCol_iff _ _).mpr ⟨v, h1, h2⟩)))
    · exact Or.inr (Or.inr (Or.inr ((matchCol_iff _ _).mpr ⟨v, h1, h2⟩)))

theorem sharesAttr_comm (a b : Record) : sharesAttr a b = sharesAttr b a := by
  have h : ∀ u v : Option String,
      (match u, v with | some x, some y => x == y | _, _ => false)
        = (match v, u with | some x, some y => x == y | _, _ => false) := by
    intro u v
    cases u <;> cases v <;> simp [eq_comm]
  simp only [sharesAttr, linkingColumns, List.any_cons, List.any_nil, Bool.or_false]
  rw [h a.phone_number b.phone_number, h a.bank_account b.bank_account,
    h a.agent_id b.agent_id, h a.aadhaar_like_id b.aadhaar_like_id]

theorem mem_recPairs {l : List α} {p : α × α} :
    p ∈ recPairs l ↔ List.Sublist [p.1, p.2] l := by
  induction l with
  | nil => simp [recPairs]
  | cons x xs ih =>
    simp only [recPairs, List.mem_append, List.mem_map, ih]
    constructor
    · rintro (⟨b, hb, hp⟩ | hs)
      · cases hp
        exact List.cons_sublist_cons.mpr (List.singleton_sublist.mpr hb)
      · exact List.Sublist.cons x hs
    · intro h
      cases h with
      | cons _ hs => exact Or.inr hs
      | cons₂ _ hs => exact Or.inl ⟨p.2, List.singleton_sublist.mp hs, Prod.mk.eta⟩

theorem sublist_pair_of_mem {a b : α} {l : List α} (ha : a ∈ l) (hb : b ∈ l)
    (hab : a ≠ b) : List.Sublist [a, b] l ∨ List.Sublist [b, a] l := by
  induction l with
  | nil => cases ha
  | cons x xs ih =>
    rcases List.mem_cons.mp ha with rfl | ha'
    · rcases List.mem_cons.mp hb with rfl | hb'
      · exact absurd rfl hab
      · exact Or.inl (List.cons_sublist_cons.mpr (List.singleton_sublist.mpr hb'))
    · rcases List.mem_cons.mp hb with rfl | hb'
      · exact Or.inr (List.cons_sublist_cons.mpr (List.singleton_sublist.mpr ha'))
      · rcases ih ha' hb' with h | h
        · exact Or.inl (List.Sublist.cons _ h)
        · exact Or.inr (List.Sublist.cons _ h)

/-- The edge predicate of the built graph, characterised by record values
and multiplicities only (positions eliminated). -/
theorem graphEdge_iff (data : List Record) (x y : String) :
    graphEdge data x y = true ↔
      ∃ a b : Record,
        (sharesAttr a b = true ∧
          ((a.beneficiary_id = x ∧ b.beneficiary_id = y) ∨
           (a.beneficiary_id = y ∧ b.beneficiary_id = x))) ∧
        ((a ≠ b ∧ a ∈ data ∧ b ∈ data) ∨ (a = b ∧ 2 ≤ data.count a)) := by
  simp only [graphEdge, List.any_eq_true, Bool.and_eq_true, Bool.or_eq_true,
    beq_iff_eq]
  constructor
  · rintro ⟨p, hp, hshare, hids⟩
    have hsub := mem_recPairs.mp hp
    by_cases hab : p.1 = p.2
    · refine ⟨p.1, p.2, ⟨hshare, hids⟩, Or.inr ⟨hab, ?_⟩⟩
      have hss : List.Sublist [p.1, p.1] data := by rw [hab] at hsub ⊢; exact hsub
      have hrep : List.Sublist (List.replicate 2 p.1) data := by
        simpa [List.replicate] using hss
      exact List.le_count_iff_replicate_sublist.mpr hrep
    · exact ⟨p.1, p.2, ⟨hshare, hids⟩,
        Or.inl ⟨hab, hsub.subset (by simp), hsub.subset (by simp)⟩⟩
  · rintro ⟨a, b, ⟨hshare, hids⟩, ⟨hab, ha, hb⟩ | ⟨rfl, hcount⟩⟩
    · rcases sublist_pair_of_mem ha hb hab with h | h
      · exact ⟨(a, b), mem_recPairs.mpr h, hshare, hids⟩
      · refine ⟨(b, a), mem_recPairs.mpr h, ?_, ?_⟩
        · rw [sharesAttr_comm]; exact hshare
        · rcases hids with ⟨h1, h2⟩ | ⟨h1, h2⟩
          · exact Or.inr ⟨h2, h1⟩
          · exact Or.inl ⟨h2, h1⟩
    · refine ⟨(a, a), mem_recPairs.mpr ?_, hshare, hids⟩
      simpa [List.replicate] using
        List.le_count_iff_replicate_sublist.mp hcount

theorem graphEdge_symm (data : List Record) (x y : String) :
    graphEdge data x y = graphEdge data y x := by
  unfold graphEdge
  congr 1
  funext p
  rw [Bool.or_comm]

/-- C1.  For every record set, the built relationship graph is undirected
(`graphEdge_symm` conjunct), and for two distinct node ids x ≠ y an edge
exists iff some record with id x and some record with id y share at least
one non-absent linking-attribute value (phone_number, bank_account,
agent_id, aadhaar_like_id); an absent (NaN/empty-cell) value, being
`Option.none`, can never witness `sharesSpec`, so such values never
create an edge. -/
theorem C1_edge_iff_shared_attribute (data : List Record) (x y : String)
    (hxy : x ≠ y) :
    (graphEdge data x y = true ↔
      ∃ a ∈ data, ∃ b ∈ data,
        a.beneficiary_id = x ∧ b.beneficiary_id = y ∧ sharesSpec a b) ∧
    graphEdge data x y = graphEdge data y x := by
  refine ⟨?_, graphEdge_symm data x y⟩
  rw [graphEdge_iff]
  constructor
  · rintro ⟨a, b, ⟨hshare, hids⟩, hmem⟩
    rcases hmem with ⟨hab, ha, hb⟩ | ⟨rfl, _⟩
    · rcases hids with ⟨hax, hby⟩ | ⟨hay, hbx⟩
      · exact ⟨a, ha, b, hb, hax, hby, (sharesAttr_iff a b).mp hshare⟩
      · refine ⟨b, hb, a, ha, hbx, hay, (sharesAttr_iff b a).mp ?_⟩
        rw [sharesAttr_comm]; exact hshare
    · rcases hids with ⟨hax, hay⟩ | ⟨hay, hax⟩
      · exact absurd (hax.symm.trans hay) hxy
      · exact absurd (hax.symm.trans hay) hxy
  · rintro ⟨a, ha, b, hb, hax, hby, hshare⟩
    refine ⟨a, b, ⟨(sharesAttr_iff a b).mpr hshare, Or.inl ⟨hax, hby⟩⟩,
      Or.inl ⟨?_, ha, hb⟩⟩
    intro h
    exact hxy (hax ▸ hby ▸ h ▸ rfl)

/-- Concrete instantiation of C1: two records sharing a phone number. -/
def c1Data : List Record :=
  [⟨"b1", some "9876500001", none, none, none⟩,
   ⟨"b2", some "9876500001", some "acc1", none, none⟩,
   ⟨"b3", none, none, none, none⟩]

theorem C1_edge_iff_shared_attribute_witness :
    ("b1" : String) ≠ "b2" ∧
    graphEdge c1Data "b1" "b2" = true ∧
    graphEdge c1Data "b1" "b3" = false ∧
    ((graphEdge c1Data "b1" "b2" = true ↔
      ∃ a ∈ c1Data, ∃ b ∈ c1Data,
        a.beneficiary_id = "b1" ∧ b.beneficiary_id = "b2" ∧ sharesSpec a b) ∧
     graphEdge c1Data "b1" "b2" = graphEdge c1Data "b2" "b1") :=
  ⟨by decide, by decide, by decide,
    C1_edge_iff_shared_attribute c1Data "b1" "b2" (by decide)⟩

theorem graphEdge_perm {data data' : List Record} (h : data.Perm data')
    (x y : String) : graphEdge data x y = graphEdge data' x y := by
  have key : ∀ u v : List Record, u.Perm v →
      graphEdge u x y = true → graphEdge v x y = true := by
    intro u v huv he
    rw [graphEdge_iff] at he ⊢
    obtain ⟨a, b, hc, hm⟩ := he
    refine ⟨a, b, hc, ?_⟩
    rcases hm with ⟨hab, ha, hb⟩ | ⟨rfl, hc2⟩
    · exact Or.inl ⟨hab, huv.mem_iff.mp ha, huv.mem_iff.mp hb⟩
    · exact Or.inr ⟨rfl, (huv.count_eq a).symm ▸ hc2⟩
  rw [Bool.eq_iff_iff]
  exact ⟨key data data' h, key data' data h.symm⟩

/-- C6.  The edge set of the built graph depends only on the records'
attribute values, not on input order: any permutation of the record list
yields the same edge predicate (and a permuted node list); and rebuilding
from the unchanged record list reproduces the identical edge set
(`build_graph` is a pure function of the record list). -/
theorem C6_build_graph_order_independent (data data' : List Record)
    (h : data.Perm data') :
    (∀ x y, graphEdge data x y = graphEdge data' x y) ∧
    (graphNodes data).Perm (graphNodes data') ∧
    (∀ x y, graphEdge data x y = graphEdge data x y) :=
  ⟨fun x y => graphEdge_perm h x y, ((h.map Record.beneficiary_id).dedup),
    fun _ _ => rfl⟩

theorem C6_build_graph_order_independent_witness :
    (c1Data.Perm c1Data.reverse) ∧
    ((∀ x y, graphEdge c1Data x y = graphEdge c1Data.reverse x y) ∧
     (graphNodes c1Data).Perm (graphNodes c1Data.reverse) ∧
     (∀ x y, graphEdge c1Data x y = graphEdge c1Data x y)) :=
  ⟨by decide, C6_build_graph_order_independent c1Data c1Data.reverse (by decide)⟩

/-- One closure step of component search: keep every graph node that is
already collected or adjacent to a collected node. -/
def closeStep (data : List Record) (s : List String) : List String :=
  (graphNodes data).filter fun y => s.contains y || s.any fun x => graphEdge data x y

/-- The connected component containing `x`, as queried by
`next(c for c in nx.connected_components(G) if selected_id in c)`:
the one-step closure iterated to a fixed point (|V| iterations suffice).
An id absent from the graph yields `[]`, matching the `StopIteration`
branch that reports `component_size = 0`. -/
def componentOf (data : List Record) (x : String) : List String :=
  (closeStep data)^[(graphNodes data).length]
    (if (graphNodes data).contains x then [x] else [])

/-- `component_size = len(component)` in `predict`. -/
def componentSize (data : List Record) (x : String) : Nat :=
  (componentOf data x).length

/-- The hard-coded ring-size threshold of `fraud_ring = component_size >= 5`. -/
def ringThreshold : Nat := 5

/-- `fraud_ring = component_size >= 5` in `predict`. -/
def fraudRingDetected (data : List Record) (x : String) : Bool :=
  decide (ringThreshold ≤ componentSize data x)

/-- Five records sharing one bank account and nothing else, plus an
unrelated sixth record. -/
def ringDemo : List Record :=
  [⟨"r1", none, some "acct9", none, none⟩,
   ⟨"r2", none, some "acct9", none, none⟩,
   ⟨"r3", none, some "acct9", none, none⟩,
   ⟨"r4", none, some "acct9", none, none⟩,
   ⟨"r5", none, some "acct9", none, none⟩,
   ⟨"r6", some "9111111111", some "acct7", some "AG1", some "111122223333"⟩]

/-- C4.  A component is classified as a fraud ring iff its size reaches
the threshold, which is (hard-coded to) 5; five records sharing one bank
account form one component of size 5 classified as a ring, while an
unrelated sixth record is a singleton component and not a ring. -/
theorem C4_ring_threshold_and_scenario :
    ringThreshold = 5 ∧
    (∀ data x, fraudRingDetected data x
        = decide (ringThreshold ≤ componentSize data x)) ∧
    componentOf ringDemo "r1" = ["r1", "r2", "r3", "r4", "r5"] ∧
    componentSize ringDemo "r1" = 5 ∧ fraudRingDetected ringDemo "r1" = true ∧
    componentSize ringDemo "r2" = 5 ∧ fraudRingDetected ringDemo "r2" = true ∧
    componentSize ringDemo "r3" = 5 ∧ fraudRingDetected ringDemo "r3" = true ∧
    componentSize ringDemo "r4" = 5 ∧ fraudRingDetected ringDemo "r4" = true ∧
    componentSize ringDemo "r5" = 5 ∧ fraudRingDetected ringDemo "r5" = true ∧
    componentSize ringDemo "r6" = 1 ∧ fraudRingDetected ringDemo "r6" = false :=
  ⟨rfl, fun _ _ => rfl, by decide, by decide, by decide, by decide, by decide,
    by decide, by decide, by decide, by decide, by decide, by decide,
    by decide, by decide⟩

/-- NetworkX degree of a node: incident-edge count with a self-loop
counted twice (the `G.degree()` values that `nx.degree_centrality`
scales). -/
def nxDegree (data : List Record) (x : String) : Nat :=
  (graphNodes data).countP (fun y => graphEdge data x y) +
    (if graphEdge data x x then 1 else 0)

/-- `nx.degree_centrality(G)[x]`: networkx returns `{n: 1 for n in G}`
when `len(G) <= 1`, and otherwise `d * (1/(len(G)-1))` for each node. -/
def degree_centrality (data : List Record) (x : String) : ℚ :=
  if (graphNodes data).length ≤ 1 then 1
  else (nxDegree data x : ℚ) / (((graphNodes data).length : ℚ) - 1)

/-- Lines 90-98 of `Fraud Network Analysis/backend.py`: the served
centrality score, with the `KeyError` fallback 0.0 for an id that is not
a key of the centrality dict (the dict's keys are the graph's nodes). -/
def centralityScore (data : List Record) (x : String) : ℚ :=
  if (graphNodes data).contains x then degree_centrality data x else 0

/-- A single isolated record. -/
def c5Single : List Record := [⟨"a", none, none, none, none⟩]

/-- Two rows carrying the same beneficiary id (and a shared phone), plus
a third row sharing that phone: the duplicate id makes `add_edge` create
a self-loop. -/
def c5Dup : List Record :=
  [⟨"x", some "7000000001", none, none, none⟩,
   ⟨"x", some "7000000001", none, none, none⟩,
   ⟨"y", some "7000000001", none, none, none⟩]

/-- C5 is false on the code: `nx.degree_centrality` scores the sole node
of a single-node graph 1, not 0; and a duplicated beneficiary id creates
a self-loop whose degree contribution pushes the score above 1. -/
theorem C5_counterexample :
    centralityScore c5Single "a" = 1 ∧ (1 : ℚ) ≠ 0 ∧
    centralityScore c5Dup "x" = 3 ∧ ¬(centralityScore c5Dup "x" ≤ 1) := by
  have hdup : centralityScore c5Dup "x" = 3 := by
    rw [centralityScore, show (graphNodes c5Dup).contains "x" = true from by decide]
    rw [degree_centrality, show (graphNodes c5Dup).length = 2 from by decide,
      show nxDegree c5Dup "x" = 3 from by decide]
    norm_num
  refine ⟨?_, by norm_num, hdup, by rw [hdup]; norm_num⟩
  rw [centralityScore, show (graphNodes c5Single).contains "a" = true from by decide]
  rw [degree_centrality, show (graphNodes c5Single).length = 1 from by decide]
  norm_num

theorem graphEdge_self_false {data : List Record}
    (hnodup : (data.map Record.beneficiary_id).Nodup) (x : String) :
    graphEdge data x x = false := by
  by_contra h
  rw [Bool.not_eq_false, graphEdge_iff] at h
  obtain ⟨a, b, ⟨_, hids⟩, hm⟩ := h
  have hid : a.beneficiary_id = b.beneficiary_id := by
    rcases hids with ⟨h1, h2⟩ | ⟨h1, h2⟩ <;> rw [h1, h2]
  rcases hm with ⟨hab, ha, hb⟩ | ⟨rfl, hcount⟩
  · exact hab (List.inj_on_of_nodup_map hnodup ha hb hid)
  · have := List.nodup_iff_count_le_one.mp (hnodup.of_map) a
    omega

/-- C5 as amended.  For a record set with pairwise-distinct beneficiary
ids, a node's served centrality score equals degree/(|V|−1) and lies in
[0,1] whenever |V| ≥ 2; for |V| = 1 networkx defines the sole node's
score as 1 (not 0 as the original claim states). -/
theorem C5_amended (data : List Record) (x : String)
    (hx : x ∈ graphNodes data)
    (hnodup : (data.map Record.beneficiary_id).Nodup) :
    (2 ≤ (graphNodes data).length →
      centralityScore data x
          = (nxDegree data x : ℚ) / (((graphNodes data).length : ℚ) - 1) ∧
      0 ≤ centralityScore data x ∧ centralityScore data x ≤ 1) ∧
    ((graphNodes data).length = 1 → centralityScore data x = 1) := by
  have hc : (graphNodes data).contains x = true := List.elem_iff.mpr hx
  constructor
  · intro hn
    have hle : ¬((graphNodes data).length ≤ 1) := by omega
    have hval : centralityScore data x
        = (nxDegree data x : ℚ) / (((graphNodes data).length : ℚ) - 1) := by
      rw [centralityScore, hc, if_pos rfl, degree_centrality, if_neg hle]
    have hden : (0 : ℚ) < ((graphNodes data).length : ℚ) - 1 := by
      have : (2 : ℚ) ≤ ((graphNodes data).length : ℚ) := by exact_mod_cast hn
      linarith
    have hdeg : (nxDegree data x : ℚ) ≤ ((graphNodes data).length : ℚ) - 1 := by
      have hself := graphEdge_self_false hnodup x
      have hcount : (graphNodes data).countP (fun y => graphEdge data x y) + 1
          ≤ (graphNodes data).length := by
        have h1 := List.length_eq_countP_add_countP
          (fun y => graphEdge data x y) (graphNodes data)
        have h2 : 0 < (graphNodes data).countP
            (fun y => decide ¬(graphEdge data x y) = true) := by
          rw [List.countP_pos_iff]
          exact ⟨x, hx, by simp [hself]⟩
        omega
      have hdn : nxDegree data x ≤ (graphNodes data).length - 1 := by
        rw [nxDegree, hself]
        simp only [Bool.false_eq_true, if_false]
        omega
      have h1 : (1 : ℕ) ≤ (graphNodes data).length := by omega
      calc (nxDegree data x : ℚ)
          ≤ (((graphNodes data).length - 1 : ℕ) : ℚ) := by exact_mod_cast hdn
        _ = ((graphNodes data).length : ℚ) - 1 := by
            rw [Nat.cast_sub h1, Nat.cast_one]
    refine ⟨hval, ?_, ?_⟩
    · rw [hval]
      exact div_nonneg (Nat.cast_nonneg _) (le_of_lt hden)
    · rw [hval]
      exact (div_le_one hden).mpr hdeg
  · intro h1
    rw [centralityScore, hc, if_pos rfl, degree_centrality, if_pos (by omega)]

/-- Two distinct records sharing a phone number. -/
def c5W : List Record :=
  [⟨"a", some "9000000009", none, none, none⟩,
   ⟨"b", some "9000000009", none, none, none⟩]

theorem centralityScore_c5W : centralityScore c5W "a" = 1 := by
  rw [centralityScore, show (graphNodes c5W).contains "a" = true from by decide]
  rw [degree_centrality, show (graphNodes c5W).length = 2 from by decide,
    show nxDegree c5W "a" = 1 from by decide]
  norm_num

theorem C5_amended_witness :
    ("a" ∈ graphNodes c5W ∧ (c5W.map Record.beneficiary_id).Nodup ∧
      2 ≤ (graphNodes c5W).length ∧ centralityScore c5W "a" = 1) ∧
    ((2 ≤ (graphNodes c5W).length →
      centralityScore c5W "a"
          = (nxDegree c5W "a" : ℚ) / (((graphNodes c5W).length : ℚ) - 1) ∧
      0 ≤ centralityScore c5W "a" ∧ centralityScore c5W "a" ≤ 1) ∧
    ((graphNodes c5W).length = 1 → centralityScore c5W "a" = 1)) :=
  ⟨⟨by decide, by decide, by decide, centralityScore_c5W⟩,
    C5_amended c5W "a" (by decide) (by decide)⟩

/-- Insertion of one value into a sorted list (helper for the sort that
`pd.Series.quantile` performs on the centrality values). -/
def insertRat (x : ℚ) : List ℚ → List ℚ
  | [] => [x]
  | y :: ys => if x ≤ y then x :: y :: ys else y :: insertRat x ys

/-- Ascending sort of the score list. -/
def sortRats : List ℚ → List ℚ
  | [] => []
  | x :: xs => insertRat x (sortRats xs)

/-- `pd.Series(scores).quantile(0.95)` with the default linear
interpolation: position `h = (n-1)*0.95` and value
`v[floor h] + (h - floor h) * (v[ceil h] - v[floor h])`.  The empty list
(pandas would give NaN; the code only queries non-empty graphs) maps
to 0. -/
def quantile95 (xs : List ℚ) : ℚ :=
  let sorted := sortRats xs
  let n := sorted.length
  if n = 0 then 0
  else
    let h : ℚ := ((n : ℚ) - 1) * (95 / 100)
    let lo := (⌊h⌋).toNat
    let hi := (⌈h⌉).toNat
    let vlo := sorted.getD lo 0
    let vhi := sorted.getD hi 0
    vlo + (h - (lo : ℚ)) * (vhi - vlo)

/-- `list(degree_centrality.values())`: the centrality score of every
node of the graph. -/
def centralityScores (data : List Record) : List ℚ :=
  (graphNodes data).map (degree_centrality data)

/-- `is_master_agent = centrality_score >= threshold`, where the
threshold is the 95th percentile of the score distribution; the
`KeyError` fallback for an id outside the graph is `False`. -/
def isMasterAgent (data : List Record) (x : String) : Bool :=
  if (graphNodes data).contains x then
    decide (quantile95 (centralityScores data) ≤ degree_centrality data x)
  else false

/-- Relabel one record's node id. -/
def renameRecord (π : String → String) (r : Record) : Record :=
  { r with beneficiary_id := π r.beneficiary_id }

theorem beq_map_inj {π : String → String} (hπ : Function.Injective π)
    (u v : String) : (π u == π v) = (u == v) := by
  rw [Bool.eq_iff_iff, beq_iff_eq, beq_iff_eq]
  exact ⟨fun h => hπ h, fun h => congrArg π h⟩

theorem recPairs_map (f : α → β) (l : List α) :
    recPairs (l.map f) = (recPairs l).map fun p => (f p.1, f p.2) := by
  induction l with
  | nil => rfl
  | cons x xs ih =>
    simp only [List.map_cons, recPairs, ih, List.map_append, List.map_map]
    rfl

theorem graphEdge_rename {π : String → String} (hπ : Function.Injective π)
    (data : List Record) (x y : String) :
    graphEdge (data.map (renameRecord π)) (π x) (π y) = graphEdge data x y := by
  unfold graphEdge
  rw [recPairs_map, List.any_map]
  congr 1
  funext p
  simp only [Function.comp]
  show (sharesAttr p.1 p.2 &&
      ((π p.1.beneficiary_id == π x && π p.2.beneficiary_id == π y) ||
       (π p.1.beneficiary_id == π y && π p.2.beneficiary_id == π x)))
    = (sharesAttr p.1 p.2 &&
      ((p.1.beneficiary_id == x && p.2.beneficiary_id == y) ||
       (p.1.beneficiary_id == y && p.2.beneficiary_id == x)))
  rw [beq_map_inj hπ, beq_map_inj hπ, beq_map_inj hπ, beq_map_inj hπ]

theorem dedup_map_inj {α β : Type} [DecidableEq α] [DecidableEq β]
    {f : α → β} (hf : Function.Injective f) (l : List α) :
    (l.map f).dedup = l.dedup.map f := by
  induction l with
  | nil => rfl
  | cons x xs ih =>
    by_cases hx : x ∈ xs
    · rw [List.map_cons, List.dedup_cons_of_mem (List.mem_map_of_mem f hx),
        List.dedup_cons_of_mem hx, ih]
    · have hfx : f x ∉ xs.map f := by
        intro h
        obtain ⟨y, hy, he⟩ := List.mem_map.mp h
        exact hx (hf he ▸ hy)
      rw [List.map_cons, List.dedup_cons_of_not_mem hfx,
        List.dedup_cons_of_not_mem hx, ih, List.map_cons]

theorem graphNodes_rename {π : String → String} (hπ : Function.Injective π)
    (data : List Record) :
    graphNodes (data.map (renameRecord π)) = (graphNodes data).map π := by
  unfold graphNodes
  rw [List.map_map]
  have h : Record.beneficiary_id ∘ renameRecord π
      = π ∘ Record.beneficiary_id := rfl
  rw [h, ← List.map_map, dedup_map_inj hπ]

theorem nxDegree_rename {π : String → String} (hπ : Function.Injective π)
    (data : List Record) (x : String) :
    nxDegree (data.map (renameRecord π)) (π x) = nxDegree data x := by
  unfold nxDegree
  rw [graphNodes_rename hπ, List.countP_map, graphEdge_rename hπ data x x]
  congr 1
  apply List.countP_congr
  intro y _
  simp only [Function.comp]
  rw [graphEdge_rename hπ data x y]

theorem degree_centrality_rename {π : String → String}
    (hπ : Function.Injective π) (data : List Record) (x : String) :
    degree_centrality (data.map (renameRecord π)) (π x)
      = degree_centrality data x := by
  unfold degree_centrality
  rw [graphNodes_rename hπ, List.length_map, nxDegree_rename hπ]

theorem centralityScores_rename {π : String → String}
    (hπ : Function.Injective π) (data : List Record) :
    centralityScores (data.map (renameRecord π)) = centralityScores data := by
  unfold centralityScores
  rw [graphNodes_rename hπ, List.map_map]
  apply List.map_congr_left
  intro y _
  simp only [Function.comp]
  rw [degree_centrality_rename hπ]

theorem contains_map_inj {π : String → String} (hπ : Function.Injective π)
    (l : List String) (x : String) :
    (l.map π).contains (π x) = l.contains x := by
  rw [Bool.eq_iff_iff, List.elem_iff, List.elem_iff, List.mem_map]
  constructor
  · rintro ⟨y, hy, he⟩
    exact hπ he ▸ hy
  · intro h
    exact ⟨x, h, rfl⟩

theorem isMasterAgent_rename {π : String → String}
    (hπ : Function.Injective π) (data : List Record) (x : String) :
    isMasterAgent (data.map (renameRecord π)) (π x) = isMasterAgent data x := by
  unfold isMasterAgent
  rw [graphNodes_rename hπ, contains_map_inj hπ, centralityScores_rename hπ,
    degree_centrality_rename hπ]

theorem filter_map_pointwise {α β : Type} {f : α → β} {p : β → Bool}
    {q : α → Bool} :
    ∀ l : List α, (∀ x ∈ l, p (f x) = q x) →
      (l.map f).filter p = (l.filter q).map f := by
  intro l h
  induction l with
  | nil => rfl
  | cons x xs ih =>
    have hx := h x (List.mem_cons_self x xs)
    have ih' := ih fun y hy => h y (List.mem_cons_of_mem x hy)
    cases hq : q x
    · simp [List.filter_cons, hx, hq, ih']
    · simp [List.filter_cons, hx, hq, ih']

/-- C7.  Hub/master-agent classification is stable under relabeling: for
an injective renaming of node ids, the hubs of the relabeled graph are
exactly the image of the hubs of the original graph. -/
theorem C7_hub_relabel (data : List Record) (π : String → String)
    (hπ : Function.Injective π) :
    (graphNodes (data.map (renameRecord π))).filter
        (isMasterAgent (data.map (renameRecord π)))
      = ((graphNodes data).filter (isMasterAgent data)).map π := by
  rw [graphNodes_rename hπ]
  exact filter_map_pointwise _ fun x _ => isMasterAgent_rename hπ data x

/-- Transposition of the two node ids "a" and "b". -/
def swapAB (s : String) : String :=
  if s = "a" then "b" else if s = "b" then "a" else s

theorem swapAB_involutive : Function.Involutive swapAB := by
  intro s
  unfold swapAB
  by_cases h1 : s = "a"
  · subst h1; simp
  · by_cases h2 : s = "b"
    · subst h2; simp
    · simp [h1, h2]

theorem C7_hub_relabel_witness :
    (graphNodes (c5W.map (renameRecord swapAB))).filter
        (isMasterAgent (c5W.map (renameRecord swapAB)))
      = ((graphNodes c5W).filter (isMasterAgent c5W)).map swapAB :=
  C7_hub_relabel c5W swapAB swapAB_involutive.injective

/-- A Python result dictionary as the stages and the orchestrator trade
them: a field is a present key iff it is `some`.  Only the keys that
`predict_anomaly`, `predict_duplicate`, `predict_fraud` and
`pipeline_basic` read or write are modelled. -/
structure PyDict where
  error : Option String
  prediction : Option String
  details : Option (List String)
  anomaly_score : Option ℚ
  duplicate_risk : Option ℚ
  confidence_genuine : Option ℚ
  beneficiary_id : Option String
  ml_prediction : Option String
  fraud_probability : Option ℚ
  normal_probability : Option ℚ
  connected_component_size : Option Nat
  fraud_ring_detected : Option Bool
  degree_centrality : Option ℚ
  master_agent_detected : Option Bool
  beneficiary_details : Option (List (String × String))
deriving DecidableEq, Repr

/-- The empty dictionary. -/
def emptyDict : PyDict :=
  ⟨none, none, none, none, none, none, none, none, none, none, none, none,
    none, none, none⟩

/-- `{'error': msg}`, the shape every adapter returns on failure. -/
def errorDict (msg : String) : PyDict := { emptyDict with error := some msg }

/-- A stage's Python return value: either a plain dict or a
`(content, status)` tuple as Flask handlers produce. -/
inductive PyResult where
  | dict (d : PyDict)
  | tup (content : PyDict) (status : Nat)
deriving DecidableEq, Repr

/-- Result of extraction: `extract_nlp` either reports `{'error': ...}`
(checked by `if 'error' in nlp_result`) or yields regex and spaCy
results.  `regex_extract` stores a key only when its match list is
non-empty, so a present key is modelled by its first match
(`regex[...][0]`). -/
structure RegexResults where
  annualIncome : Option String
  aadhaarId : Option String
  phoneNumber : Option String
  bankAccount : Option String
  beneficiaryId : Option String
  householdId : Option String
deriving DecidableEq, Repr

structure NlpOut where
  regex : RegexResults
  names : List String
deriving DecidableEq, Repr

/-- The normalized feature record `pipeline_basic` assembles before
dispatching the scoring stages (lines 67-105 of `main.py`). -/
structure Features where
  annual_income : ℚ
  aadhaar_like_id : Option String
  phone_number : Option String
  bank_account : Option String
  beneficiary_id : String
  household_id : Option String
  name : String
  registrations_per_aadhaar : Nat
  bank_shared_count : Nat
  phone_shared_count : Nat
  district : String
deriving DecidableEq, Repr

/-- The characters stripped from an income string by
`re.sub(r'[â‚¹,Rs\.\s]', '', income_str)`: the three bytes of a
mis-decoded rupee sign, comma, 'R', 's', dot and ASCII whitespace. -/
def incomeStripChars : List Char :=
  ['â', '‚', '¹', ',', 'R', 's', '.', ' ', '\t', '\n', '\r']

def cleanIncome (s : String) : String :=
  ⟨s.data.filter fun c => !(incomeStripChars.contains c)⟩

/-- Feature assembly of `pipeline_basic`, parametric in Python's
`float()` parser (`pyFloat s = none` models a `ValueError`): a missing
or unparseable 'Annual Income' falls back to 50000, a missing
'Beneficiary ID' falls back to the constant "BEN0001", a missing 'Name'
to the empty string, and the numeric covariates and district are fixed
defaults. -/
def buildFeatures (pyFloat : String → Option ℚ) (n : NlpOut) : Features :=
  { annual_income :=
      match n.regex.annualIncome with
      | some s => (pyFloat (cleanIncome s)).getD 50000
      | none => 50000
    aadhaar_like_id := n.regex.aadhaarId
    phone_number := n.regex.phoneNumber
    bank_account := n.regex.bankAccount
    beneficiary_id := n.regex.beneficiaryId.getD "BEN0001"
    household_id := n.regex.householdId
    name := n.names.headD ""
    registrations_per_aadhaar := 1
    bank_shared_count := 1
    phone_shared_count := 1
    district := "District_1" }

/-- Normalization that `pipeline_basic` applies to the anomaly and
duplicate results (lines 114-130 of `main.py`): a `(content, status)`
tuple with non-200 status aborts with that status, a dict carrying
'error' aborts with 400, anything else passes through. -/
def stageAbortCheck (r : PyResult) : Except (Nat × PyDict) PyDict :=
  match r with
  | .tup content status =>
      if status ≠ 200 then .error (status, content) else .ok content
  | .dict d =>
      match d.error with
      | some _ => .error (400, d)
      | none => .ok d

/-- The defined neutral default substituted for a beneficiary that is
not in the network dataset (lines 136-147 and 154-165 of `main.py`). -/
def neutralFraudDict (benId : String) : PyDict :=
  { emptyDict with
    beneficiary_id := some benId
    ml_prediction := some "Beneficiary Not In Network Dataset"
    fraud_probability := some 0
    normal_probability := some 100
    connected_component_size := some 0
    fraud_ring_detected := some false
    degree_centrality := some 0
    master_agent_detected := some false
    beneficiary_details := some [] }

/-- Normalization of the fraud result (lines 132-167 of `main.py`): the
specific error 'Beneficiary not in dataset' is substituted by the
neutral default before any status check; any other failure aborts. -/
def normalizeFraud (benId : String) (r : PyResult) : Except (Nat × PyDict) PyDict :=
  match r with
  | .tup content status =>
      if content.error = some "Beneficiary not in dataset" then
        .ok (neutralFraudDict benId)
      else if status ≠ 200 then .error (status, content)
      else .ok content
  | .dict d =>
      match d.error with
      | some msg =>
          if msg = "Beneficiary not in dataset" then .ok (neutralFraudDict benId)
          else .error (400, d)
      | none => .ok d

/-- Outcome of one `pipeline_basic` call: an aborted HTTP error response
or the aggregated result dict
`{nlp_extraction, anomaly_detection, duplicate_detection,
fraud_network_analysis}` (an entry for every stage by construction). -/
inductive PipelineOutcome where
  | aborted (status : Nat) (content : PyDict)
  | aggregated (nlp : NlpOut) (anomaly duplicate fraud : PyDict)
deriving DecidableEq, Repr

def isAggregated : PipelineOutcome → Bool
  | .aggregated _ _ _ _ => true
  | .aborted _ _ => false

/-- Collection phase of `pipeline_basic`: normalize the three gathered
stage results in order (anomaly, duplicate, fraud), aborting the whole
request on the first normalization failure. -/
def collectStages (n : NlpOut) (benId : String) (ar dr fr : PyResult) :
    PipelineOutcome :=
  match stageAbortCheck ar with
  | .error (s, c) => .aborted s c
  | .ok a =>
    match stageAbortCheck dr with
    | .error (s, c) => .aborted s c
    | .ok d =>
      match normalizeFraud benId fr with
      | .error (s, c) => .aborted s c
      | .ok f => .aggregated n a d f

/-- `pipeline_basic` after NLP extraction: an extraction error aborts
with 400; otherwise features are built and every scoring stage is
dispatched on them (the fraud stage receiving the beneficiary id), and
their results are collected. -/
def pipelineBasic (pyFloat : String → Option ℚ)
    (anomalyF duplicateF : Features → PyResult) (fraudF : String → PyResult)
    (nlpRes : Except PyDict NlpOut) : PipelineOutcome :=
  match nlpRes with
  | .error e => .aborted 400 e
  | .ok n =>
    let feats := buildFeatures pyFloat n
    collectStages n feats.beneficiary_id (anomalyF feats) (duplicateF feats)
      (fraudF feats.beneficiary_id)

/-- A successful anomaly-stage payload. -/
def okAnomaly : PyDict :=
  { emptyDict with
    prediction := some "Beneficiary Appears Normal"
    anomaly_score := some 0
    details := some ["No strong anomaly patterns detected based on the trained AI model."] }

/-- A successful duplicate-stage payload. -/
def okDuplicate : PyDict :=
  { emptyDict with
    prediction := some "Appears Genuine"
    confidence_genuine := some 80 }

/-- A successful fraud-stage payload. -/
def okFraud : PyDict :=
  { emptyDict with
    beneficiary_id := some "BEN0001"
    ml_prediction := some "Appears Normal"
    fraud_probability := some 10
    normal_probability := some 90
    connected_component_size := some 1
    fraud_ring_detected := some false
    degree_centrality := some 0
    master_agent_detected := some false
    beneficiary_details := some [] }

/-- A successful NLP extraction. -/
def demoNlp : NlpOut :=
  ⟨⟨none, none, none, none, some "BEN0001", none⟩, []⟩

/-- C2 is false on the code: when the anomaly stage returns the
internal-class failure `{'error': str(e)}` (its `except` branch) while
the duplicate and fraud stages succeed, `pipeline_basic` aborts the
whole request with status 400 instead of producing an aggregated result
with a per-stage failure entry. -/
theorem C2_counterexample :
    okDuplicate.error = none ∧ okFraud.error = none ∧
    (errorDict "model failure").error = some "model failure" ∧
    isAggregated (collectStages demoNlp "BEN0001"
      (.dict (errorDict "model failure")) (.dict okDuplicate)
      (.dict okFraud)) = false ∧
    collectStages demoNlp "BEN0001" (.dict (errorDict "model failure"))
        (.dict okDuplicate) (.dict okFraud)
      = .aborted 400 (errorDict "model failure") :=
  ⟨rfl, rfl, rfl, rfl, rfl⟩

/-- C2 as amended.  A failure of the anomaly or duplicate stage —
internal-class and validation-class alike — aborts the whole request
with status 400 (or the stage's own status); per-stage failure entries
are never recorded.  Only the fraud stage's specific
'Beneficiary not in dataset' outcome is tolerated (see C3). -/
theorem C2_amended (n : NlpOut) (benId msg : String) (a : PyDict)
    (dr fr : PyResult) (ha : a.error = none) :
    collectStages n benId (.dict (errorDict msg)) dr fr
        = .aborted 400 (errorDict msg) ∧
    collectStages n benId (.dict a) (.dict (errorDict msg)) fr
        = .aborted 400 (errorDict msg) := by
  constructor
  · rfl
  · simp [collectStages, stageAbortCheck, ha, errorDict]

theorem C2_amended_witness :
    (okAnomaly.error = none) ∧
    (collectStages demoNlp "BEN0001" (.dict (errorDict "boom"))
        (.dict okDuplicate) (.dict okFraud)
      = .aborted 400 (errorDict "boom") ∧
    collectStages demoNlp "BEN0001" (.dict okAnomaly)
        (.dict (errorDict "boom")) (.dict okFraud)
      = .aborted 400 (errorDict "boom")) :=
  ⟨rfl, C2_amended demoNlp "BEN0001" "boom" okAnomaly
    (.dict okDuplicate) (.dict okFraud) rfl⟩

/-- Modelled from the spec: the module `Fraud_Network_Analysis/backend.py`
that `main.py` imports (the one defining `predict_fraud`) is not among
the available sources; only its caller `main.py` — which matches on the
error message 'Beneficiary not in dataset' — and the sibling variant
`Fraud Network Analysis/backend.py` are.  Per spec §4.3/§7 a query for
an id absent from the record store / graph is a NotFound-class failure,
returned as an error response with exactly the message the caller
matches; for a present id the stage returns the full network-analysis
result, its ML fields coming from the opaque trained model `pred`. -/
def predict_fraud (pred : String → Int × ℚ) (data : List Record)
    (benId : String) : PyResult :=
  if (data.map Record.beneficiary_id).contains benId then
    .dict { emptyDict with
      beneficiary_id := some benId
      ml_prediction := some (if (pred benId).1 = 1 then "Fraud Ring Suspected"
        else "Appears Normal")
      fraud_probability := some ((pred benId).2 * 100)
      normal_probability := some ((1 - (pred benId).2) * 100)
      connected_component_size := some (componentSize data benId)
      fraud_ring_detected := some (fraudRingDetected data benId)
      degree_centrality := some (centralityScore data benId)
      master_agent_detected := some (isMasterAgent data benId)
      beneficiary_details := some [] }
  else
    .tup (errorDict "Beneficiary not in dataset") 400

/-- C3.  For a beneficiary id absent from the record store/graph, the
fraud stage's not-found outcome is substituted by the defined neutral
default (fraud probability 0, component size 0, no ring, no master
agent); the outcome is the aggregated result carrying an entry for every
stage (the `aggregated` constructor holds all four), not an abort. -/
theorem C3_neutral_default_soft_fail (pred : String → Int × ℚ)
    (data : List Record) (n : NlpOut) (benId : String) (a d : PyDict)
    (hAbsent : benId ∉ data.map Record.beneficiary_id)
    (ha : a.error = none) (hd : d.error = none) :
    collectStages n benId (.dict a) (.dict d) (predict_fraud pred data benId)
        = .aggregated n a d (neutralFraudDict benId) ∧
    (neutralFraudDict benId).fraud_probability = some 0 ∧
    (neutralFraudDict benId).connected_component_size = some 0 ∧
    (neutralFraudDict benId).fraud_ring_detected = some false ∧
    (neutralFraudDict benId).master_agent_detected = some false ∧
    isAggregated (collectStages n benId (.dict a) (.dict d)
      (predict_fraud pred data benId)) = true := by
  have hc : (data.map Record.beneficiary_id).contains benId = false :=
    Bool.eq_false_iff.mpr fun h => hAbsent (List.elem_iff.mp h)
  have hcoll : collectStages n benId (.dict a) (.dict d)
      (predict_fraud pred data benId)
        = .aggregated n a d (neutralFraudDict benId) := by
    unfold predict_fraud
    rw [hc]
    simp [collectStages, stageAbortCheck, normalizeFraud, ha, hd, errorDict]
  exact ⟨hcoll, rfl, rfl, rfl, rfl, by rw [hcoll]; rfl⟩

theorem C3_neutral_default_soft_fail_witness :
    ("BEN0001" ∉ ringDemo.map Record.beneficiary_id ∧
      okAnomaly.error = none ∧ okDuplicate.error = none) ∧
    (collectStages demoNlp "BEN0001" (.dict okAnomaly) (.dict okDuplicate)
        (predict_fraud (fun _ => (0, 0)) ringDemo "BEN0001")
      = .aggregated demoNlp okAnomaly okDuplicate (neutralFraudDict "BEN0001") ∧
    (neutralFraudDict "BEN0001").fraud_probability = some 0 ∧
    (neutralFraudDict "BEN0001").connected_component_size = some 0 ∧
    (neutralFraudDict "BEN0001").fraud_ring_detected = some false ∧
    (neutralFraudDict "BEN0001").master_agent_detected = some false ∧
    isAggregated (collectStages demoNlp "BEN0001" (.dict okAnomaly)
      (.dict okDuplicate)
      (predict_fraud (fun _ => (0, 0)) ringDemo "BEN0001")) = true) :=
  ⟨⟨by decide, rfl, rfl⟩,
    C3_neutral_default_soft_fail (fun _ => (0, 0)) ringDemo demoNlp "BEN0001"
      okAnomaly okDuplicate (by decide) rfl rfl⟩

/-- C9.  A document whose extraction yields no 'Beneficiary ID' match is
given the constant id "BEN0001", a missing or unparseable
'Annual Income' is given 50000, and `pipeline_basic` then proceeds to
dispatch every scoring stage on the assembled features instead of
aborting for the missing field. -/
theorem C9_missing_field_defaults (pyFloat : String → Option ℚ) (n : NlpOut)
    (aF dF : Features → PyResult) (fF : String → PyResult) :
    (n.regex.beneficiaryId = none →
      (buildFeatures pyFloat n).beneficiary_id = "BEN0001") ∧
    (n.regex.annualIncome = none →
      (buildFeatures pyFloat n).annual_income = 50000) ∧
    (∀ s, n.regex.annualIncome = some s → pyFloat (cleanIncome s) = none →
      (buildFeatures pyFloat n).annual_income = 50000) ∧
    pipelineBasic pyFloat aF dF fF (.ok n)
      = collectStages n (buildFeatures pyFloat n).beneficiary_id
          (aF (buildFeatures pyFloat n)) (dF (buildFeatures pyFloat n))
          (fF (buildFeatures pyFloat n).beneficiary_id) := by
  refine ⟨fun h => ?_, fun h => ?_, fun s hs hp => ?_, rfl⟩
  · simp [buildFeatures, h]
  · simp [buildFeatures, h]
  · simp [buildFeatures, hs, hp]

/-- An extraction with an unparseable income and no beneficiary id. -/
def c9Nlp : NlpOut := ⟨⟨some "₹ abc", none, none, none, none, none⟩, []⟩

def c9A : Features → PyResult := fun _ => .dict okAnomaly

def c9D : Features → PyResult := fun _ => .dict okDuplicate

def c9F : String → PyResult := fun _ => .dict okFraud

def c9PF : String → Option ℚ := fun _ => none

theorem C9_missing_field_defaults_witness :
    (buildFeatures c9PF c9Nlp).beneficiary_id = "BEN0001" ∧
    (buildFeatures c9PF c9Nlp).annual_income = 50000 ∧
    pipelineBasic c9PF c9A c9D c9F (.ok c9Nlp)
      = collectStages c9Nlp (buildFeatures c9PF c9Nlp).beneficiary_id
          (c9A (buildFeatures c9PF c9Nlp)) (c9D (buildFeatures c9PF c9Nlp))
          (c9F (buildFeatures c9PF c9Nlp).beneficiary_id) :=
  ⟨(C9_missing_field_defaults c9PF c9Nlp c9A c9D c9F).1 rfl,
   (C9_missing_field_defaults c9PF c9Nlp c9A c9D c9F).2.2.1 "₹ abc" rfl rfl,
   (C9_missing_field_defaults c9PF c9Nlp c9A c9D c9F).2.2.2⟩

/-- A Python scalar value as it may arrive in a request's feature
record. -/
inductive PyScalar where
  | int (n : Int)
  | float (q : ℚ)
  | str (s : String)
deriving DecidableEq, Repr

/-- `isinstance(v, (int, float))`. -/
def PyScalar.isNum : PyScalar → Bool
  | .int _ => true
  | .float _ => true
  | .str _ => false

def PyScalar.toRat : PyScalar → ℚ
  | .int n => (n : ℚ)
  | .float q => q
  | .str _ => 0

def PyScalar.toInt : PyScalar → Int
  | .int n => n
  | .float _ => 0
  | .str _ => 0

/-- `str(v)` (only the value-level content matters here; Python's float
formatting is not reproduced digit-for-digit). -/
def PyScalar.pyStr : PyScalar → String
  | .int n => toString n
  | .float q => toString q
  | .str s => s

/-- `isinstance(v, int) and lo <= v <= hi`. -/
def validIntRange (v : PyScalar) (lo hi : Int) : Bool :=
  match v with
  | .int n => decide (lo ≤ n) && decide (n ≤ hi)
  | _ => false

/-- `round(q, k)` to k decimal places.  (Python rounds exact halves to
even; nearest-integer rounding is used here, and no claim depends on
tie behaviour.) -/
def pyRound (k : Nat) (q : ℚ) : ℚ :=
  (round (q * ((10 : ℚ) ^ k)) : ℤ) / ((10 : ℚ) ^ k)

/-- The fields `predict_anomaly` reads from its input dict; `none` means
the key is absent (`data.get(..., default)`). -/
structure AnomalyData where
  annual_income : Option PyScalar
  registrations_per_aadhaar : Option PyScalar
  bank_shared_count : Option PyScalar
  phone_shared_count : Option PyScalar
deriving DecidableEq, Repr

/-- `Anomaly_Detection/backend.py::predict_anomaly`, parametric in the
opaque Isolation-Forest model, which is given the validated inputs and
returns `(decision_function value, predict value)` or raises
(`Except.error`, caught by the function's `try/except` into
`{'error': str(e)}`).  The function is total — the orchestration
boundary never sees an exception. -/
def predict_anomaly (model : ℚ → Int → Int → Int → Except String (ℚ × Int))
    (data : AnomalyData) : PyDict :=
  let annual_income := data.annual_income.getD (.int 50000)
  let rpa := data.registrations_per_aadhaar.getD (.int 1)
  let bsc := data.bank_shared_count.getD (.int 1)
  let psc := data.phone_shared_count.getD (.int 1)
  if !annual_income.isNum || decide (annual_income.toRat < 0) then
    errorDict "Invalid annual_income"
  else if !(validIntRange rpa 1 10) then
    errorDict "Invalid registrations_per_aadhaar (1-10)"
  else if !(validIntRange bsc 1 15) then
    errorDict "Invalid bank_shared_count (1-15)"
  else if !(validIntRange psc 1 15) then
    errorDict "Invalid phone_shared_count (1-15)"
  else
    match model annual_income.toRat rpa.toInt bsc.toInt psc.toInt with
    | .error e => errorDict e
    | .ok (decision, pred) =>
      if pred = -1 then
        { emptyDict with
          prediction := some "High Fraud Risk Detected"
          anomaly_score := some (pyRound 4 (-decision))
          details := some ["Possible reasons:",
            "- Duplicate Aadhaar registrations",
            "- Shared bank account among many beneficiaries",
            "- Shared phone number indicating collusion",
            "- Income inconsistent with scheme eligibility"] }
      else
        { emptyDict with
          prediction := some "Beneficiary Appears Normal"
          anomaly_score := some (pyRound 4 (-decision))
          details := some
            ["No strong anomaly patterns detected based on the trained AI model."] }

/-- One row of `duplicate_detection_50000_v4.csv` after `astype(str)`. -/
structure DupRow where
  aadhaar_like_id : String
  phone_number : String
  bank_account : String
  household_id : String
deriving DecidableEq, Repr

/-- The fields `predict_duplicate` reads from its input dict. -/
structure DupData where
  aadhaar_like_id : Option PyScalar
  name : Option PyScalar
  household_id : Option PyScalar
  phone_number : Option PyScalar
  bank_account : Option PyScalar
  district : Option PyScalar
deriving DecidableEq, Repr

/-- The single-row input DataFrame handed to the XGBoost pipeline. -/
structure DupInput where
  aadhaar_like_id : String
  name : String
  household_id : String
  phone_number : String
  bank_account : String
  district : String
  aadhaar_count : ℚ
  phone_count : ℚ
  bank_count : ℚ
  household_size : ℚ
deriving DecidableEq, Repr

/-- `Duplicate_Detection/backend.py::predict_duplicate`, parametric in
the opaque XGBoost pipeline returning `(predict, predict_proba[1])` or
raising (`Except.error`, caught into `{'error': str(e)}`); the linkage
counts are row counts of the loaded dataset.  Total, like
`predict_anomaly`. -/
def predict_duplicate (pipeline : DupInput → Except String (Int × ℚ))
    (df : List DupRow) (data : DupData) : PyDict :=
  let aadhaar_str := (data.aadhaar_like_id.getD (.str "")).pyStr
  let phone_str := (data.phone_number.getD (.str "")).pyStr
  let bank_str := (data.bank_account.getD (.str "")).pyStr
  let household_str := (data.household_id.getD (.str "")).pyStr
  let aadhaar_count := df.countP fun r => r.aadhaar_like_id == aadhaar_str
  let phone_count := df.countP fun r => r.phone_number == phone_str
  let bank_count := df.countP fun r => r.bank_account == bank_str
  let household_size := df.countP fun r => r.household_id == household_str
  if aadhaar_str = "" then errorDict "Invalid aadhaar_like_id"
  else if phone_str = "" then errorDict "Invalid phone_number"
  else if bank_str = "" then errorDict "Invalid bank_account"
  else if household_str = "" then errorDict "Invalid household_id"
  else
    match pipeline ⟨aadhaar_str, (data.name.getD (.str "")).pyStr,
      household_str, phone_str, bank_str,
      (data.district.getD (.str "District_1")).pyStr,
      (aadhaar_count : ℚ), (phone_count : ℚ), (bank_count : ℚ),
      (household_size : ℚ)⟩ with
    | .error e => errorDict e
    | .ok (pred, prob) =>
      if pred = 1 then
        { emptyDict with
          prediction := some "Duplicate Detected"
          duplicate_risk := some (pyRound 2 (prob * 100))
          details := some ["Possible Reasons",
            "- Shared phone or bank across many beneficiaries",
            "- Same Aadhaar appearing multiple times",
            "- Large household cluster",
            "- Cross-district duplication pattern"] }
      else
        { emptyDict with
          prediction := some "Appears Genuine"
          confidence_genuine := some (pyRound 2 ((1 - prob) * 100)) }

/-- C8.  Both scoring-stage adapters are total Lean functions (their
Python counterparts catch every exception), and each returns either a
tagged failure dict carrying only an error message or a success payload
carrying no error key — never both. -/
theorem C8_adapters_total_and_tagged
    (model : ℚ → Int → Int → Int → Except String (ℚ × Int))
    (pipeline : DupInput → Except String (Int × ℚ)) (df : List DupRow)
    (a : AnomalyData) (d : DupData) :
    ((predict_anomaly model a).error.isSome = true ∧
      (predict_anomaly model a).prediction = none ∧
      (predict_anomaly model a).anomaly_score = none ∧
      (predict_anomaly model a).details = none ∨
     (predict_anomaly model a).error = none ∧
      (predict_anomaly model a).prediction.isSome = true ∧
      (predict_anomaly model a).anomaly_score.isSome = true) ∧
    ((predict_duplicate pipeline df d).error.isSome = true ∧
      (predict_duplicate pipeline df d).prediction = none ∧
      (predict_duplicate pipeline df d).duplicate_risk = none ∧
      (predict_duplicate pipeline df d).confidence_genuine = none ∨
     (predict_duplicate pipeline df d).error = none ∧
      (predict_duplicate pipeline df d).prediction.isSome = true ∧
      ((predict_duplicate pipeline df d).duplicate_risk.isSome = true ∨
       (predict_duplicate pipeline df d).confidence_genuine.isSome = true)) := by
  constructor
  · simp only [predict_anomaly]
    repeat' split
    all_goals simp [errorDict, emptyDict]
  · simp only [predict_duplicate]
    repeat' split
    all_goals simp [errorDict, emptyDict]

/-- A JSON-like Python value as `convert_to_serializable` receives it:
numpy scalars and arrays (`np.integer`, `np.floating`, `np.ndarray` —
an object-dtype array may store any value), Python scalars, `None`,
lists and string-keyed dicts. -/
inductive PyVal where
  | npInt (n : Int)
  | npFloat (q : ℚ)
  | npArray (elems : List PyVal)
  | int (n : Int)
  | float (q : ℚ)
  | str (s : String)
  | bool (b : Bool)
  | null
  | list (elems : List PyVal)
  | dict (entries : List (String × PyVal))

mutual

/-- `numpy.ndarray.tolist()` on one stored element: numpy scalars become
Python scalars, nested arrays become nested lists, and any other stored
object (as held by an object-dtype array) is returned as-is — `tolist`
does not descend into dicts or lists it stores. -/
def ndarrayElemTolist : PyVal → PyVal
  | .npInt n => .int n
  | .npFloat q => .float q
  | .npArray xs => .list (ndarrayTolist xs)
  | v => v

def ndarrayTolist : List PyVal → List PyVal
  | [] => []
  | x :: xs => ndarrayElemTolist x :: ndarrayTolist xs

end

mutual

/-- `main.py::convert_to_serializable`: numpy ints/floats to Python
ints/floats, `np.ndarray` to `obj.tolist()` (returned directly, with no
recursive conversion), dicts and lists converted entrywise, everything
else returned unchanged. -/
def convert_to_serializable : PyVal → PyVal
  | .npInt n => .int n
  | .npFloat q => .float q
  | .npArray xs => .list (ndarrayTolist xs)
  | .dict es => .dict (convertEntries es)
  | .list xs => .list (convertList xs)
  | v => v

/-- `[convert_to_serializable(item) for item in obj]`. -/
def convertList : List PyVal → List PyVal
  | [] => []
  | x :: xs => convert_to_serializable x :: convertList xs

/-- `{key: convert_to_serializable(value) for key, value in obj.items()}`. -/
def convertEntries : List (String × PyVal) → List (String × PyVal)
  | [] => []
  | (k, v) :: es => (k, convert_to_serializable v) :: convertEntries es

end

/-- An object-dtype ndarray holding a dict with a numpy scalar inside:
`np.array([{'a': np.int64(1)}], dtype=object)`. -/
def badVal : PyVal := .npArray [.dict [("a", .npInt 1)]]

/-- C10's idempotence is false on the code: for an ndarray storing a
dict, `obj.tolist()` is returned without recursive conversion, so the
numpy scalar inside survives one application and is converted by a
second one. -/
theorem C10_counterexample :
    convert_to_serializable (convert_to_serializable badVal)
      ≠ convert_to_serializable badVal := by
  have h1 : convert_to_serializable badVal
      = .list [.dict [("a", .npInt 1)]] := by
    simp [convert_to_serializable, badVal, ndarrayTolist, ndarrayElemTolist]
  have h2 : convert_to_serializable (.list [.dict [("a", PyVal.npInt 1)]])
      = .list [.dict [("a", .int 1)]] := by
    simp [convert_to_serializable, convertList, convertEntries]
  rw [h1, h2]
  intro h
  simp at h

mutual

/-- A value admissible as the element of a numeric (non-object) ndarray:
numpy scalars and nested numeric arrays. -/
def numericArrayElem : PyVal → Bool
  | .npInt _ => true
  | .npFloat _ => true
  | .npArray xs => numericArrayList xs
  | _ => false

def numericArrayList : List PyVal → Bool
  | [] => true
  | x :: xs => numericArrayElem x && numericArrayList xs

end

mutual

/-- Every ndarray inside the value is numeric (holds numpy scalars or
nested numeric arrays only) — the shape of every value the pipeline
actually serializes. -/
def arraysNumeric : PyVal → Bool
  | .npArray xs => numericArrayList xs
  | .list xs => arraysNumericList xs
  | .dict es => arraysNumericEntries es
  | _ => true

def arraysNumericList : List PyVal → Bool
  | [] => true
  | x :: xs => arraysNumeric x && arraysNumericList xs

def arraysNumericEntries : List (String × PyVal) → Bool
  | [] => true
  | (_, v) :: es => arraysNumeric v && arraysNumericEntries es

end

mutual

/-- No numpy value occurs anywhere inside. -/
def numpyFree : PyVal → Bool
  | .npInt _ => false
  | .npFloat _ => false
  | .npArray _ => false
  | .list xs => numpyFreeList xs
  | .dict es => numpyFreeEntries es
  | _ => true

def numpyFreeList : List PyVal → Bool
  | [] => true
  | x :: xs => numpyFree x && numpyFreeList xs

def numpyFreeEntries : List (String × PyVal) → Bool
  | [] => true
  | (_, v) :: es => numpyFree v && numpyFreeEntries es

end

mutual

theorem tolist_numpyFree :
    ∀ v, numericArrayElem v = true → numpyFree (ndarrayElemTolist v) = true
  | .npInt _, _ => rfl
  | .npFloat _, _ => rfl
  | .npArray xs, h => tolist_numpyFree_list xs h
  | .int _, h => by simp [numericArrayElem] at h
  | .float _, h => by simp [numericArrayElem] at h
  | .str _, h => by simp [numericArrayElem] at h
  | .bool _, h => by simp [numericArrayElem] at h
  | .null, h => by simp [numericArrayElem] at h
  | .list _, h => by simp [numericArrayElem] at h
  | .dict _, h => by simp [numericArrayElem] at h

theorem tolist_numpyFree_list :
    ∀ xs, numericArrayList xs = true → numpyFreeList (ndarrayTolist xs) = true
  | [], _ => rfl
  | x :: xs, h => by
    rw [numericArrayList, Bool.and_eq_true] at h
    rw [ndarrayTolist, numpyFreeList, Bool.and_eq_true]
    exact ⟨tolist_numpyFree x h.1, tolist_numpyFree_list xs h.2⟩

end

mutual

theorem convert_numpyFree :
    ∀ v, arraysNumeric v = true → numpyFree (convert_to_serializable v) = true
  | .npInt _, _ => rfl
  | .npFloat _, _ => rfl
  | .npArray xs, h => tolist_numpyFree_list xs h
  | .int _, _ => rfl
  | .float _, _ => rfl
  | .str _, _ => rfl
  | .bool _, _ => rfl
  | .null, _ => rfl
  | .list xs, h => convert_numpyFree_list xs h
  | .dict es, h => convert_numpyFree_entries es h

theorem convert_numpyFree_list :
    ∀ xs, arraysNumericList xs = true → numpyFreeList (convertList xs) = true
  | [], _ => rfl
  | x :: xs, h => by
    rw [arraysNumericList, Bool.and_eq_true] at h
    rw [convertList, numpyFreeList, Bool.and_eq_true]
    exact ⟨convert_numpyFree x h.1, convert_numpyFree_list xs h.2⟩

theorem convert_numpyFree_entries :
    ∀ es, arraysNumericEntries es = true →
      numpyFreeEntries (convertEntries es) = true
  | [], _ => rfl
  | (k, v) :: es, h => by
    rw [arraysNumericEntries, Bool.and_eq_true] at h
    rw [convertEntries, numpyFreeEntries, Bool.and_eq_true]
    exact ⟨convert_numpyFree v h.1, convert_numpyFree_entries es h.2⟩

end

mutual

theorem convert_id_of_numpyFree :
    ∀ v, numpyFree v = true → convert_to_serializable v = v
  | .npInt _, h => by simp [numpyFree] at h
  | .npFloat _, h => by simp [numpyFree] at h
  | .npArray _, h => by simp [numpyFree] at h
  | .int _, _ => rfl
  | .float _, _ => rfl
  | .str _, _ => rfl
  | .bool _, _ => rfl
  | .null, _ => rfl
  | .list xs, h => by
    rw [convert_to_serializable, convert_id_list xs h]
  | .dict es, h => by
    rw [convert_to_serializable, convert_id_entries es h]

theorem convert_id_list :
    ∀ xs, numpyFreeList xs = true → convertList xs = xs
  | [], _ => rfl
  | x :: xs, h => by
    rw [numpyFreeList, Bool.and_eq_true] at h
    rw [convertList, convert_id_of_numpyFree x h.1, convert_id_list xs h.2]

theorem convert_id_entries :
    ∀ es, numpyFreeEntries es = true → convertEntries es = es
  | [], _ => rfl
  | (k, v) :: es, h => by
    rw [numpyFreeEntries, Bool.and_eq_true] at h
    rw [convertEntries, convert_id_of_numpyFree v h.1, convert_id_entries es h.2]

end

theorem convertEntries_keys (es : List (String × PyVal)) :
    (convertEntries es).map Prod.fst = es.map Prod.fst := by
  induction es with
  | nil => rfl
  | cons kv es ih =>
    obtain ⟨k, v⟩ := kv
    rw [convertEntries, List.map_cons, List.map_cons, ih]

theorem convertList_length (xs : List PyVal) :
    (convertList xs).length = xs.length := by
  induction xs with
  | nil => rfl
  | cons x xs ih => rw [convertList, List.length_cons, List.length_cons, ih]

theorem ndarrayTolist_length (xs : List PyVal) :
    (ndarrayTolist xs).length = xs.length := by
  induction xs with
  | nil => rfl
  | cons x xs ih => rw [ndarrayTolist, List.length_cons, List.length_cons, ih]

/-- The key list of a dict value, `None` otherwise. -/
def dictKeys : PyVal → Option (List String)
  | .dict es => some (es.map Prod.fst)
  | _ => none

/-- The length of a list value, `None` otherwise. -/
def listLen : PyVal → Option Nat
  | .list xs => some xs.length
  | _ => none

/-- C10 as amended.  `convert_to_serializable` is idempotent on every
value whose ndarrays hold only numpy scalars or nested numeric arrays
(idempotence fails for object-dtype arrays storing containers, see the
counterexample); unconditionally it preserves every dict's key list and
every list's/array's length, converts numpy ints, floats and arrays to
Python ints, floats and lists, and leaves other scalars unchanged. -/
theorem C10_amended (x : PyVal) (es : List (String × PyVal))
    (xs : List PyVal) (n : Int) (q : ℚ) (s : String) (b : Bool)
    (h : arraysNumeric x = true) :
    convert_to_serializable (convert_to_serializable x)
        = convert_to_serializable x ∧
    dictKeys (convert_to_serializable (.dict es)) = some (es.map Prod.fst) ∧
    listLen (convert_to_serializable (.list xs)) = some xs.length ∧
    listLen (convert_to_serializable (.npArray xs)) = some xs.length ∧
    convert_to_serializable (.npInt n) = .int n ∧
    convert_to_serializable (.npFloat q) = .float q ∧
    convert_to_serializable (.int n) = .int n ∧
    convert_to_serializable (.float q) = .float q ∧
    convert_to_serializable (.str s) = .str s ∧
    convert_to_serializable (.bool b) = .bool b ∧
    convert_to_serializable .null = .null := by
  refine ⟨convert_id_of_numpyFree _ (convert_numpyFree x h), ?_, ?_, ?_,
    rfl, rfl, rfl, rfl, rfl, rfl, rfl⟩
  · rw [convert_to_serializable, dictKeys, convertEntries_keys]
  · rw [convert_to_serializable, listLen, convertList_length]
  · rw [convert_to_serializable, listLen, ndarrayTolist_length]

theorem C10_amended_witness :
    arraysNumeric (.npArray [.npInt 1, .npFloat 2]) = true ∧
    (convert_to_serializable (convert_to_serializable
        (.npArray [.npInt 1, .npFloat 2]))
      = convert_to_serializable (.npArray [.npInt 1, .npFloat 2]) ∧
    dictKeys (convert_to_serializable (.dict [("k", .npInt 7)]))
      = some ([("k", PyVal.npInt 7)].map Prod.fst) ∧
    listLen (convert_to_serializable (.list [.null])) = some [PyVal.null].length ∧
    listLen (convert_to_serializable (.npArray [.null])) = some [PyVal.null].length ∧
    convert_to_serializable (.npInt 3) = .int 3 ∧
    convert_to_serializable (.npFloat 5) = .float 5 ∧
    convert_to_serializable (.int 3) = .int 3 ∧
    convert_to_serializable (.float 5) = .float 5 ∧
    convert_to_serializable (.str "t") = .str "t" ∧
    convert_to_serializable (.bool true) = .bool true ∧
    convert_to_serializable .null = .null) :=
  ⟨by simp [arraysNumeric, numericArrayList, numericArrayElem],
    C10_amended (.npArray [.npInt 1, .npFloat 2]) [("k", .npInt 7)] [.null]
      3 5 "t" true
      (by simp [arraysNumeric, numericArrayList, numericArrayElem])⟩

end FakeWelfare
